import Mathlib

/-!
Verification of the qualification / scoring / batch-gated outreach pipeline.

The definitions below are a shallow embedding of the JavaScript sources:
  backend/services/intelligent-scorer.js   (signal detection, qualification, scoring)
  backend/services/batch-processor.js      (inventory and batch creation)
  backend/services/ai-conversation-handler.js (reply handling)
  backend/agents/auto-outreach-agent.js    (legacy gap-based outreach agent)
  the three outreach agents and SQL schema found in the unnamed source parts
  backend/server.js                        (unsubscribe endpoints)

JavaScript numbers are modelled as Int (scores in the data are integers; the
single fractional constant, the 0.8 pain-keyword weight, is handled exactly,
see painSeverityOf).  Database state is explicit record-of-lists state passed
through each operation; timestamps are abstract Nat values supplied by the
caller.  Fallible operations return Except.
-/

/-- JavaScript values as they appear in the lead records this pipeline
handles: null, booleans, (integer) numbers, strings, arrays and objects.
An absent property is modelled by the key being missing from the object. -/
inductive Jval where
  | jnull : Jval
  | jbool : Bool → Jval
  | jnum : Int → Jval
  | jstr : String → Jval
  | jarr : List Jval → Jval
  | jobj : List (String × Jval) → Jval

/-- Escape a string the way JSON.stringify does for the characters that can
occur in this repository's data (quote, backslash and common control chars). -/
def escapeJson (s : String) : String :=
  String.join (s.data.map (fun c =>
    if c == '"' then "\\\""
    else if c == '\\' then "\\\\"
    else if c == '\n' then "\\n"
    else if c == '\t' then "\\t"
    else if c == '\r' then "\\r"
    else String.singleton c))

mutual

/-- JSON.stringify on the modelled values: objects render as
open-brace key:value,... close-brace with keys in insertion order, exactly the
corpus intelligent-scorer.js builds with JSON.stringify(opportunity). -/
def stringify : Jval → String
  | .jnull => "null"
  | .jbool true => "true"
  | .jbool false => "false"
  | .jnum n => toString n
  | .jstr s => "\"" ++ escapeJson s ++ "\""
  | .jarr es => "[" ++ stringifyElems es ++ "]"
  | .jobj fs => "\x7b" ++ stringifyFields fs ++ "\x7d"

def stringifyElems : List Jval → String
  | [] => ""
  | [e] => stringify e
  | e :: e2 :: es => stringify e ++ "," ++ stringifyElems (e2 :: es)

def stringifyFields : List (String × Jval) → String
  | [] => ""
  | [(k, v)] => "\"" ++ escapeJson k ++ "\":" ++ stringify v
  | (k, v) :: f2 :: fs =>
      "\"" ++ escapeJson k ++ "\":" ++ stringify v ++ "," ++ stringifyFields (f2 :: fs)

end

/-- First field with the given key, in insertion order. -/
def lookupField (k : String) : List (String × Jval) → Option Jval
  | [] => none
  | (k2, v) :: fs => if k2 == k then some v else lookupField k fs

/-- Property lookup on an object (`opportunity.field`); `none` models
`undefined` (absent key or non-object receiver). -/
def getField (o : Jval) (k : String) : Option Jval :=
  match o with
  | .jobj fs => lookupField k fs
  | _ => none

/-- JavaScript truthiness of a possibly-absent value (`!!x`). -/
def jsTruthy : Option Jval → Bool
  | none => false
  | some .jnull => false
  | some (.jbool b) => b
  | some (.jnum n) => decide (n ≠ 0)
  | some (.jstr s) => decide (s ≠ "")
  | some (.jarr _) => true
  | some (.jobj _) => true

/-- Number of keys `Object.keys(v).length` sees: object keys, array indices, or
string length; 0 for the primitives, whose key list is empty. -/
def objKeysLen : Jval → Nat
  | .jobj fs => fs.length
  | .jarr es => es.length
  | .jstr s => s.length
  | _ => 0

/-- Lowercasing as String.prototype.toLowerCase acts on this repository's
ASCII data: char-wise toLower. -/
def toLowerStr (s : String) : String :=
  String.mk (s.data.map Char.toLower)

/-- `k` occurs at the start of `t`. -/
def headMatches : List Char → List Char → Bool
  | [], _ => true
  | _ :: _, [] => false
  | a :: as, b :: bs => a == b && headMatches as bs

/-- `k` occurs somewhere in `t` (contiguously). -/
def hasSubstr (k : List Char) : List Char → Bool
  | [] => headMatches k []
  | t :: ts => headMatches k (t :: ts) || hasSubstr k ts

/-- String.prototype.includes: substring containment. -/
def jsIncludes (text k : String) : Bool :=
  hasSubstr k.data text.data

/-- intelligent-scorer.js containsAny (lines 271-273):
`keywords.some(keyword => text.includes(keyword.toLowerCase()))`. -/
def containsAny (text : String) (keywords : List String) : Bool :=
  keywords.any (fun k => jsIncludes text (toLowerStr k))

/- Keyword lists, verbatim from intelligent-scorer.js detectSignals
(lines 44-114). -/

def needsHelpKeywords : List String :=
  ["need help", "looking for", "anyone know", "recommendations",
   "struggle with", "problem with", "issue with", "difficulty",
   "cant figure out", "stuck on", "how to", "best way to"]

def hiringKeywords : List String :=
  ["hiring", "looking to hire", "need developer", "need designer",
   "freelancer", "contractor", "agency", "consultant", "full-time",
   "part-time", "seeking", "recruiting"]

def sourcingSolutionsKeywords : List String :=
  ["tool for", "software for", "platform for", "service for",
   "solution for", "alternative to", "better than", "recommend",
   "which tool", "what software", "looking at"]

def fundingMentionedKeywords : List String :=
  ["funded", "raised", "series a", "series b", "seed round",
   "venture", "investors", "valuation", "$", "million", "k funding"]

def payingForToolsKeywords : List String :=
  ["subscription", "paying for", "using", "license",
   "per month", "annual plan", "pricing", "cost"]

def budgetSignalsKeywords : List String :=
  ["budget", "spend", "invest", "allocate", "worth it",
   "roi", "return", "revenue", "profitable", "customers"]

def painPointDetectedKeywords : List String :=
  ["problem", "issue", "challenge", "struggle", "difficult",
   "frustrating", "slow", "manual", "time consuming", "inefficient",
   "bottleneck", "blocker", "broken"]

def urgencyHighKeywords : List String :=
  ["asap", "urgent", "immediately", "right now", "today",
   "this week", "deadline", "critical", "emergency"]

def urgencyMediumKeywords : List String :=
  ["soon", "next week", "this month", "looking to start",
   "planning to", "need by"]

def clientAcquisitionFitKeywords : List String :=
  ["lead generation", "get clients", "find customers", "sales",
   "outreach", "marketing", "growth", "acquisition", "convert",
   "closing deals", "pipeline", "prospecting"]

/-- The signal map detectSignals returns. -/
structure Signals where
  needsHelp : Bool
  hiring : Bool
  sourcingSolutions : Bool
  fundingMentioned : Bool
  payingForTools : Bool
  budgetSignals : Bool
  painPointDetected : Bool
  urgencyHigh : Bool
  urgencyMedium : Bool
  clientAcquisitionFit : Bool
  hasContactInfo : Bool
  hasOpportunityData : Bool

/-- The search corpus detectSignals and scoreQualifiedLead build:
`JSON.stringify(opportunity).toLowerCase()` — the serialization of the whole
record, key names, punctuation and non-string values included. -/
def jsonCorpus (o : Jval) : String :=
  toLowerStr (stringify o)

/-- intelligent-scorer.js detectSignals (lines 44-114). -/
def detectSignals (o : Jval) : Signals :=
  let text := jsonCorpus o
  { needsHelp := containsAny text needsHelpKeywords
    hiring := containsAny text hiringKeywords
    sourcingSolutions := containsAny text sourcingSolutionsKeywords
    fundingMentioned := containsAny text fundingMentionedKeywords
    payingForTools := containsAny text payingForToolsKeywords
    budgetSignals := containsAny text budgetSignalsKeywords
    painPointDetected := containsAny text painPointDetectedKeywords
    urgencyHigh := containsAny text urgencyHighKeywords
    urgencyMedium := containsAny text urgencyMediumKeywords
    clientAcquisitionFit := containsAny text clientAcquisitionFitKeywords
    hasContactInfo :=
      jsTruthy (getField o "company_domain") ||
      jsTruthy (getField o "contact_email") ||
      jsTruthy (getField o "route_to_outreach")
    hasOpportunityData :=
      match getField o "opportunity_data" with
      | some v => jsTruthy (some v) && decide (0 < objKeysLen v)
      | none => false }

/-- `opportunity.overall_score || 0`: the numeric discovery score, 0 when the
field is absent or not a number. -/
def overallScoreOrZero (o : Jval) : Int :=
  match getField o "overall_score" with
  | some (.jnum n) => n
  | _ => 0

/-- `(opportunity.overall_score || 0) >= 70` (line 19). -/
def hasHighScore (o : Jval) : Bool :=
  decide (70 ≤ overallScoreOrZero o)

/-- `opportunity.route_to_outreach === true` (line 20). -/
def isRoutedToOutreach (o : Jval) : Bool :=
  match getField o "route_to_outreach" with
  | some (.jbool true) => true
  | _ => false

/-- The qualificationCriteria object (lines 22-27). -/
structure QualCriteria where
  lookingForSolutions : Bool
  hasBudget : Bool
  relevantPainPoint : Bool
  reachable : Bool

/-- `Object.values(criteria).filter(v => v === true).length` (line 30). -/
def criteriaCount (c : QualCriteria) : Nat :=
  (cond c.lookingForSolutions 1 0) + (cond c.hasBudget 1 0) +
    (cond c.relevantPainPoint 1 0) + (cond c.reachable 1 0)

/-- intelligent-scorer.js getDisqualificationReason (lines 275-281). -/
def getDisqualificationReason (c : QualCriteria) : String :=
  let failed :=
    (if c.lookingForSolutions then [] else ["lookingForSolutions"]) ++
    (if c.hasBudget then [] else ["hasBudget"]) ++
    (if c.relevantPainPoint then [] else ["relevantPainPoint"]) ++
    (if c.reachable then [] else ["reachable"])
  "Missing: " ++ String.intercalate ", " failed

structure QualResult where
  qualified : Bool
  criteria : QualCriteria
  signals : Signals
  reason : String

/-- intelligent-scorer.js preQualify (lines 15-39). -/
def preQualify (o : Jval) : QualResult :=
  let signals := detectSignals o
  let high := hasHighScore o
  let routed := isRoutedToOutreach o
  let criteria : QualCriteria :=
    { lookingForSolutions :=
        signals.needsHelp || signals.hiring || signals.sourcingSolutions || high
      hasBudget :=
        signals.fundingMentioned || signals.payingForTools || signals.budgetSignals || high
      relevantPainPoint := signals.painPointDetected || high
      reachable := signals.hasContactInfo || routed }
  let isQualified := decide (3 ≤ criteriaCount criteria) || routed || high
  { qualified := isQualified
    criteria := criteria
    signals := signals
    reason :=
      if isQualified then "Meets qualification criteria"
      else getDisqualificationReason criteria }

/- Scoring (intelligent-scorer.js scoreQualifiedLead, lines 120-190). -/

/-- The pain keyword list of scoreQualifiedLead (lines 126-130): the
detector's pain list plus 'failing' and 'losing money'. -/
def painKeywords : List String :=
  ["problem", "issue", "challenge", "struggle", "difficult",
   "frustrating", "slow", "manual", "time consuming", "inefficient",
   "bottleneck", "blocker", "broken", "failing", "losing money"]

/-- Number of pain keywords the corpus contains (`text.includes(keyword)`,
one 0.8 increment per list entry that matches). -/
def painHitsOf (text : String) : Nat :=
  (painKeywords.filter (fun k => jsIncludes text k)).length

/-- Lines 125-134: 0.8 added per matched keyword, then
`Math.min(10, Math.round(painSeverity))`.  The JS accumulation is in binary
floating point, but every partial sum 0.8*n for n ≤ 15 is at distance ≥ 0.1
from the nearest rounding boundary x.5 while the accumulated float error is
below 1e-14, so Math.round gives exactly round-half-up of the rational 4n/5,
i.e. (8n+5)/10 in integer arithmetic. -/
def painSeverityOf (text : String) : Nat :=
  min 10 ((8 * painHitsOf text + 5) / 10)

/-- Lines 137-141: +4 funding, +3 paying for tools, +3 budget signals,
clamped to 10. -/
def budgetLikelihoodOf (s : Signals) : Nat :=
  min 10 ((cond s.fundingMentioned 4 0) + (cond s.payingForTools 3 0) +
    (cond s.budgetSignals 3 0))

/-- Lines 144-147: tiered urgency, default 5. -/
def urgencyOf (s : Signals) : Nat :=
  if s.urgencyHigh then 9
  else if s.urgencyMedium then 7
  else if s.needsHelp || s.hiring then 6
  else 5

/-- Lines 150-154: +5 client-acquisition fit, +2 needsHelp,
+3 hiring/sourcing, clamped to 10. -/
def serviceFitOf (s : Signals) : Nat :=
  min 10 ((cond s.clientAcquisitionFit 5 0) + (cond s.needsHelp 2 0) +
    (cond (s.hiring || s.sourcingSolutions) 3 0))

/-- Lines 159-162: recommendation from the total. -/
def recommendationOf (total : Nat) : String :=
  if 30 ≤ total then "PRIORITY"
  else if 25 ≤ total then "QUALIFIED"
  else if 20 ≤ total then "MAYBE"
  else "SKIP"

structure ScoreBreakdown where
  painSeverity : Nat
  budgetLikelihood : Nat
  urgency : Nat
  serviceFit : Nat
  totalScore : Nat
  recommendation : String
  reasoning : String
  keyInsights : List String
  suggestedApproach : String

/-- intelligent-scorer.js scoreQualifiedLead (lines 120-190). -/
def scoreQualifiedLead (o : Jval) : ScoreBreakdown :=
  let text := jsonCorpus o
  let signals := detectSignals o
  let painSeverity := painSeverityOf text
  let budgetLikelihood := budgetLikelihoodOf signals
  let urgency := urgencyOf signals
  let serviceFit := serviceFitOf signals
  let totalScore := painSeverity + budgetLikelihood + urgency + serviceFit
  { painSeverity := painSeverity
    budgetLikelihood := budgetLikelihood
    urgency := urgency
    serviceFit := serviceFit
    totalScore := totalScore
    recommendation := recommendationOf totalScore
    reasoning :=
      "Score " ++ toString totalScore ++ "/40: Pain=" ++ toString painSeverity ++
        ", Budget=" ++ toString budgetLikelihood ++ ", Urgency=" ++ toString urgency ++
        ", Fit=" ++ toString serviceFit
    keyInsights :=
      (if 7 ≤ painSeverity then ["High pain point severity detected"] else []) ++
      (if 7 ≤ budgetLikelihood then ["Strong budget indicators"] else []) ++
      (if 8 ≤ urgency then ["High urgency - act quickly"] else []) ++
      (if 7 ≤ serviceFit then ["Excellent fit for our services"] else [])
    suggestedApproach :=
      if 30 ≤ totalScore then
        "Priority contact - personalized approach, reference specific pain points"
      else if 25 ≤ totalScore then
        "Qualified lead - personalized outreach with value proposition"
      else "Standard outreach" }

/- Outreach data model shared by the agents (unnamed part holding the three
AutoOutreachAgent variants, backend/agents/auto-outreach-agent.js, and the
outreach_campaigns schema in the SQL part). -/

/-- A row of outreach_campaigns.  The union of the columns the different
agents write; fields an insert does not mention keep their defaults
(status defaults to draft per the schema).  `id` is the numeric key used by
the conversation handler's updates. -/
structure CampaignRow where
  id : Nat := 0
  gap_id : Option Nat := none
  opportunity_id : Option Nat := none
  company_name : String := ""
  contact_name : Option String := none
  recipient_email : Option String := none
  subject : String := ""
  body : Option String := none
  email_content : Option String := none
  status : String := "draft"
  approved_for_sending : Bool := false
  fit_score : Option Int := none
  sent_at : Option Nat := none
  created_at : Option Nat := none
  unsubscribed_at : Option Nat := none
  last_reply_at : Option Nat := none
  sentiment : Option String := none
  booking_triggered_at : Option Nat := none
  deriving DecidableEq

/-- A row of mfs_leads (the MFS agent's source table). -/
structure MfsLead where
  id : Nat
  company_name : String := ""
  contact_name : Option String := none
  contact_email : Option String := none
  fit_score : Option Int := none
  lead_research : Option String := none
  outreach_status : Option String := none
  outreach_updated_at : Option Nat := none
  deriving DecidableEq

/-- A row of market_gaps (the gap-based agents' source table). -/
structure MarketGap where
  id : Nat
  company_name : String := ""
  gap_type : String := ""
  confidence_score : ℚ := 0
  approved_for_outreach : Bool := false
  outreach_sent : Option Bool := none
  deriving DecidableEq

/-- A row of email_blocklist (written by the unsubscribe endpoints). -/
structure BlockEntry where
  email : String
  reason : String := ""
  details : String := ""
  deriving DecidableEq

/-- An email actually handed to the Resend client (the observable dispatch). -/
structure SentEmail where
  toAddr : Option String
  subject : String
  body : String
  deriving DecidableEq

/-- The subject/body pair the e-mail writers produce. -/
structure EmailDraft where
  subject : String
  body : String
  deriving DecidableEq

/-- SmartEmailWriter.validateEmail result shape (valid flag, issue list,
quality grade), as consumed by the MFS agent. -/
structure EmailValidation where
  valid : Bool
  issues : List String := []
  quality : String := "ok"
  deriving DecidableEq

/-- The persistent store the outreach agents and the unsubscribe endpoints
share, plus the list of dispatched emails as the observable side channel. -/
structure OutreachState where
  campaigns : List CampaignRow := []
  mfsLeads : List MfsLead := []
  marketGaps : List MarketGap := []
  blocklist : List BlockEntry := []
  settings : List (String × String) := []
  dispatched : List SentEmail := []
  deriving DecidableEq

/-- system_settings lookup: the stored setting_value for a key. -/
def lookupSetting (st : OutreachState) (key : String) : Option String :=
  (st.settings.find? (fun kv => kv.fst == key)).map (fun kv => kv.snd)

/-- `settings?.setting_value === 'true'` — the auto-send toggle read at the
start of each gated sweep.  The schema's default insert stores 'false', so
this is false unless the value was changed to the string 'true'. -/
def autoSendEnabledIn (st : OutreachState) : Bool :=
  lookupSetting st "auto_outreach_enabled" == some "true"

/- The MFS outreach agent (second AutoOutreachAgent class in the unnamed
agent part: processOutreach, checkAlreadySent, sendEmail, createCampaign,
markLeadStatus). -/

/-- checkAlreadySent: a campaign with this recipient and status sent exists
(`.eq(recipient_email, email).eq(status, 'sent').limit(1)`); false for a
missing address. -/
def checkAlreadySent (st : OutreachState) (email : Option String) : Bool :=
  match email with
  | none => false
  | some e =>
      decide (0 < (st.campaigns.filter
        (fun c => c.recipient_email == some e && c.status == "sent")).length)

/-- The row update markLeadStatus applies to the rows matching the id. -/
def updLeadStatus (now : Nat) (leadId : Nat) (status : String) (r : MfsLead) :
    MfsLead :=
  if r.id == leadId then
    { r with outreach_status := some status, outreach_updated_at := some now }
  else r

/-- markLeadStatus: update outreach_status (and the update timestamp) of the
mfs_leads rows with the given id. -/
def markLeadStatus (now : Nat) (leadId : Nat) (status : String)
    (st : OutreachState) : OutreachState :=
  { st with mfsLeads := st.mfsLeads.map (updLeadStatus now leadId status) }

/-- The MFS agent's createCampaign: inserts one outreach_campaigns row whose
status is sent or draft according to whether the send happened. -/
def mfsCreateCampaign (now : Nat) (lead : MfsLead) (email : EmailDraft)
    (sent : Bool) (st : OutreachState) : OutreachState :=
  { st with campaigns := st.campaigns ++
      [{ opportunity_id := some lead.id
         company_name := lead.company_name
         contact_name := lead.contact_name
         recipient_email := lead.contact_email
         subject := email.subject
         email_content := some email.body
         status := if sent then "sent" else "draft"
         fit_score := lead.fit_score
         sent_at := if sent then some now else none
         created_at := some now }] }

/-- The MFS agent's sendEmail: hand the message to Resend, addressed to the
lead's contact_email. -/
def mfsSendEmail (lead : MfsLead) (email : EmailDraft)
    (st : OutreachState) : OutreachState :=
  { st with dispatched := st.dispatched ++
      [{ toAddr := lead.contact_email, subject := email.subject, body := email.body }] }

/-- The body of the MFS processOutreach per-lead loop.  `writeEmail` and
`validateEmail` stand for SmartEmailWriter.writeEmail / validateEmail, whose
source file is not in the repository snapshot (modelled as parameters:
external drafting that returns a subject/body and a quality verdict);
`sendOk` models whether the Resend call succeeds.  Branches in source order:
dedup skip (already_sent), quality skip (email_quality_failed), send with
failure handling (sent / send_failed), or draft. -/
def processMfsLead (writeEmail : MfsLead → EmailDraft)
    (validateEmail : EmailDraft → EmailValidation) (sendOk : MfsLead → Bool)
    (autoSend hasApiKey : Bool) (now : Nat)
    (st : OutreachState) (lead : MfsLead) : OutreachState :=
  if checkAlreadySent st lead.contact_email then
    markLeadStatus now lead.id "already_sent" st
  else if !(validateEmail (writeEmail lead)).valid &&
      (validateEmail (writeEmail lead)).quality == "poor" then
    markLeadStatus now lead.id "email_quality_failed" st
  else if autoSend && hasApiKey then
    if sendOk lead then
      markLeadStatus now lead.id "sent"
        (mfsCreateCampaign now lead (writeEmail lead) true
          (mfsSendEmail lead (writeEmail lead) st))
    else
      markLeadStatus now lead.id "send_failed" st
  else
    markLeadStatus now lead.id "draft"
      (mfsCreateCampaign now lead (writeEmail lead) false st)

/-- The MFS processOutreach loop over the leads the sweep selected. -/
def processMfsLeads (writeEmail : MfsLead → EmailDraft)
    (validateEmail : EmailDraft → EmailValidation) (sendOk : MfsLead → Bool)
    (autoSend hasApiKey : Bool) (now : Nat)
    (leads : List MfsLead) (st : OutreachState) : OutreachState :=
  leads.foldl (processMfsLead writeEmail validateEmail sendOk autoSend hasApiKey now) st

/-- The MFS sweep's lead selection: researched, with an address, status null
or pending (ordering by fit_score and the limit of 5 do not matter for the
properties below, which quantify over arbitrary selected lists; this
definition keeps the filter for concrete runs). -/
def selectMfsLeads (st : OutreachState) : List MfsLead :=
  (st.mfsLeads.filter (fun l =>
    !(l.lead_research == none) && !(l.contact_email == none) &&
      (l.outreach_status == none || l.outreach_status == some "pending"))).take 5

/-- A full MFS processOutreach sweep: read the auto-send toggle, select
leads, run the loop. -/
def mfsProcessOutreach (writeEmail : MfsLead → EmailDraft)
    (validateEmail : EmailDraft → EmailValidation) (sendOk : MfsLead → Bool)
    (hasApiKey : Bool) (now : Nat) (st : OutreachState) : OutreachState :=
  processMfsLeads writeEmail validateEmail sendOk (autoSendEnabledIn st) hasApiKey now
    (selectMfsLeads st) st

/- The gap-based agents.  backend/agents/auto-outreach-agent.js (the legacy
agent) and the third AutoOutreachAgent class of the unnamed agent part (the
gated variant) share generateEmail verbatim. -/

/-- generateEmail: the three templates keyed by gap_type, with
templates.technology as the fallback (`templates[gap.gap_type] ||
templates.technology`). -/
def generateEmail (gap : MarketGap) : EmailDraft :=
  let technology : EmailDraft :=
    { subject := "Streamline your tech stack at " ++ gap.company_name
      body := "Hi,\n\nI noticed that " ++ gap.company_name ++
        " might benefit from modern automation solutions.\n\nWe specialize in helping companies like yours modernize their technology stack and improve operational efficiency.\n\nWould you be open to a quick conversation about how we can help?\n\nBest regards,\nUnbound.Team" }
  let growth : EmailDraft :=
    { subject := "Unlock revenue growth for " ++ gap.company_name
      body := "Hi,\n\nI see " ++ gap.company_name ++
        " has strong market signals. We help companies like yours optimize revenue and accelerate growth.\n\nWould love to share some strategies that might be relevant for your business.\n\nBest regards,\nUnbound.Team" }
  let operations : EmailDraft :=
    { subject := "Automate operations at " ++ gap.company_name
      body := "Hi,\n\nRunning lean can be challenging. We help small teams like yours automate workflows and scale operations efficiently.\n\nInterested in learning how we can help?\n\nBest regards,\nUnbound.Team" }
  if gap.gap_type == "technology" then technology
  else if gap.gap_type == "growth" then growth
  else if gap.gap_type == "operations" then operations
  else technology

/-- Mark a market_gaps row as contacted (`update(outreach_sent: true)`). -/
def markGapContacted (gapId : Nat) (st : OutreachState) : OutreachState :=
  { st with marketGaps := st.marketGaps.map (fun g =>
      if g.id == gapId then { g with outreach_sent := some true } else g) }

/-- backend/agents/auto-outreach-agent.js sendOutreach (lines 66-97): insert
the campaign with status sent and sent_at set — unconditionally; this agent
never reads system_settings and has no email client, so no message is
dispatched, but the record claims the send happened. -/
def legacySendOutreach (now : Nat) (st : OutreachState) (gap : MarketGap) :
    OutreachState :=
  let email := generateEmail gap
  markGapContacted gap.id
    { st with campaigns := st.campaigns ++
        [{ gap_id := some gap.id
           company_name := gap.company_name
           subject := email.subject
           body := some email.body
           status := "sent"
           sent_at := some now }] }

/-- backend/agents/auto-outreach-agent.js processOutreach (lines 35-64):
gaps with confidence_score ≥ 0.7 and outreach_sent null, limit 5, each put
through sendOutreach.  No system_settings read anywhere in this agent. -/
def legacyProcessOutreach (now : Nat) (st : OutreachState) : OutreachState :=
  let gaps := (st.marketGaps.filter (fun g =>
    decide (mkRat 7 10 ≤ g.confidence_score) && g.outreach_sent == none)).take 5
  gaps.foldl (legacySendOutreach now) st

/-- The gated gap agent's sendOutreach (third class of the unnamed agent
part): status and approved_for_sending follow autoSendEnabled, sent_at only
when enabled. -/
def gatedSendOutreach (now : Nat) (autoSend : Bool) (st : OutreachState)
    (gap : MarketGap) : OutreachState :=
  let email := generateEmail gap
  markGapContacted gap.id
    { st with campaigns := st.campaigns ++
        [{ gap_id := some gap.id
           company_name := gap.company_name
           subject := email.subject
           body := some email.body
           status := if autoSend then "sent" else "draft"
           approved_for_sending := autoSend
           sent_at := if autoSend then some now else none }] }

/-- The gated gap agent's processOutreach: reads auto_outreach_enabled, then
selects approved gaps with confidence ≥ 0.7 not yet contacted, limit 5. -/
def gatedProcessOutreach (now : Nat) (st : OutreachState) : OutreachState :=
  let autoSend := autoSendEnabledIn st
  let gaps := (st.marketGaps.filter (fun g =>
    decide (mkRat 7 10 ≤ g.confidence_score) && g.approved_for_outreach &&
      g.outreach_sent == none)).take 5
  gaps.foldl (gatedSendOutreach now autoSend) st

/- The unsubscribe endpoints (backend/server.js lines 2465-2536). -/

/-- GET /api/unsubscribe/:email — upsert the lowercased address into
email_blocklist (reason unsubscribe) and rewrite every outreach_campaigns
row for that recipient to status unsubscribed. -/
def unsubscribeGet (now : Nat) (email : String) (st : OutreachState) :
    OutreachState :=
  let e := toLowerStr email
  let entry : BlockEntry := { email := e, reason := "unsubscribe", details := "user_requested" }
  let bl :=
    if st.blocklist.any (fun b => b.email == e) then
      st.blocklist.map (fun b => if b.email == e then entry else b)
    else st.blocklist ++ [entry]
  { st with
      blocklist := bl
      campaigns := st.campaigns.map (fun c =>
        if c.recipient_email == some e then
          { c with status := "unsubscribed", unsubscribed_at := some now }
        else c) }

/-- POST /api/unsubscribe/:email — blocklist upsert only. -/
def unsubscribePost (email : String) (st : OutreachState) : OutreachState :=
  let e := toLowerStr email
  let entry : BlockEntry := { email := e, reason := "unsubscribe", details := "one_click_unsubscribe" }
  { st with blocklist :=
      if st.blocklist.any (fun b => b.email == e) then
        st.blocklist.map (fun b => if b.email == e then entry else b)
      else st.blocklist ++ [entry] }

/- Batch processor (backend/services/batch-processor.js). -/

/-- A row of scored_opportunities as the batch processor sees it. -/
structure ScoredLead where
  id : Nat
  qualified : Bool := false
  overall_score : Int := 0
  batch_id : Option Nat := none
  deriving DecidableEq

/-- A row of processing_batches. -/
structure BatchRow where
  id : Nat
  client_id : String := ""
  batch_size : Nat := 0
  status : String := "created"
  created_at : Nat := 0
  deriving DecidableEq

/-- The store the batch processor reads and writes; nextBatchId stands for
the database-generated key of the next inserted batch. -/
structure BatchStore where
  scored : List ScoredLead := []
  batches : List BatchRow := []
  nextBatchId : Nat := 1
  deriving DecidableEq

/-- this.config (lines 15-19): batchSize 100, inventoryTarget 10000,
minScore 25. -/
def cfgBatchSize : Nat := 100

def cfgInventoryTarget : Nat := 10000

def cfgMinScore : Int := 25

/-- The inventory filter: qualified, overall_score ≥ minScore, batch_id
null. -/
def inInventory (l : ScoredLead) : Bool :=
  l.qualified && decide (cfgMinScore ≤ l.overall_score) && l.batch_id == none

/-- getInventoryStatus's return shape. -/
structure InventoryStatus where
  available : Nat
  target : Nat
  needsReplenishment : Bool
  inProcessing : Nat

/-- getInventoryStatus (lines 25-46).  `available` is modelled as the count
the query asks for (qualified, score ≥ 25, batch_id null).  Note the source
destructures the response as `data: qualified` although a head:true count
query carries the number in `count` with `data` null, so at runtime
`qualified?.count || 0` yields 0; we model the query's count, the reading
most favorable to the spec — the batch-creation claim fails earlier
regardless (see createBatch). -/
def getInventoryStatus (st : BatchStore) : InventoryStatus :=
  let avail := (st.scored.filter inInventory).length
  { available := avail
    target := cfgInventoryTarget
    needsReplenishment := decide (avail < 1000)
    inProcessing := (st.batches.filter (fun b =>
      b.status == "researching" || b.status == "ready_to_send" ||
        b.status == "sending")).length }

/-- The failure conditions createBatch can surface: the thrown JavaScript
ReferenceError, or the `Insufficient inventory: A available, need N` error
(the INSUFFICIENT_INVENTORY condition). -/
inductive CreateBatchError where
  | referenceError : String → CreateBatchError
  | insufficientInventory : Nat → Nat → CreateBatchError
  deriving DecidableEq

/-- createBatch's success value (batchId, leadCount, leads, status). -/
structure BatchResult where
  batchId : Nat
  leadCount : Nat
  leads : List ScoredLead
  status : String
  deriving DecidableEq

/-- Stable insertion for descending order by overall_score. -/
def insertByScoreDesc (l : ScoredLead) : List ScoredLead → List ScoredLead
  | [] => [l]
  | x :: xs =>
      if x.overall_score < l.overall_score then l :: x :: xs
      else x :: insertByScoreDesc l xs

/-- `order('overall_score', descending)`: stable descending sort. -/
def orderByScoreDesc : List ScoredLead → List ScoredLead
  | [] => []
  | x :: xs => insertByScoreDesc x (orderByScoreDesc xs)

/-- Lines 55-101 of createBatch — the body that would run if the inventory
status had been obtained: fail with the INSUFFICIENT_INVENTORY condition
when available < batchSize, otherwise insert the batch row, select the
top-100 inventory leads by descending score, and stamp their batch_id. -/
def createBatchBody (status : InventoryStatus) (clientId : String) (now : Nat)
    (st : BatchStore) : Except CreateBatchError (BatchResult × BatchStore) :=
  if status.available < cfgBatchSize then
    Except.error (CreateBatchError.insufficientInventory status.available cfgBatchSize)
  else
    let batch : BatchRow :=
      { id := st.nextBatchId, client_id := clientId, batch_size := cfgBatchSize
        status := "created", created_at := now }
    let leads := (orderByScoreDesc (st.scored.filter inInventory)).take cfgBatchSize
    let leadIds := leads.map (fun l => l.id)
    let scored2 := st.scored.map (fun l =>
      if leadIds.contains l.id then { l with batch_id := some batch.id } else l)
    Except.ok
      ({ batchId := batch.id, leadCount := leads.length, leads := leads
         status := "created" },
       { st with scored := scored2, batches := st.batches ++ [batch]
                 nextBatchId := st.nextBatchId + 1 })

/-- createBatch (batch-processor.js lines 51-107).  Its first statement is
`const status = await getInventoryStatus();` — the identifier
`getInventoryStatus` is written without `this.` and no module-level binding
of that name exists (the method is only reachable as
`this.getInventoryStatus`, which is how completeBatch at line 157 calls it),
so evaluating the call throws `ReferenceError: getInventoryStatus is not
defined` before the inventory check; the surrounding catch logs and rethrows
the same error.  The body below the faulty line is createBatchBody, kept
separately because it is unreachable from here. -/
def createBatch (clientId : String) (st : BatchStore) :
    Except CreateBatchError (BatchResult × BatchStore) :=
  Except.error (CreateBatchError.referenceError "getInventoryStatus")

/-- The call createBatch's first line was evidently meant to make
(`this.getInventoryStatus()`, as completeBatch does): obtain the status,
then run the rest of the body. -/
def createBatchFixed (clientId : String) (now : Nat) (st : BatchStore) :
    Except CreateBatchError (BatchResult × BatchStore) :=
  createBatchBody (getInventoryStatus st) clientId now st

/- Conversation handler (backend/services/ai-conversation-handler.js). -/

/-- The classifier output contract (classifyReply's JSON shape). -/
structure Classification where
  intent : String
  sentiment : String := "neutral"
  questions : List String := []
  objections : List String := []
  deriving DecidableEq

/-- A row of email_conversations. -/
structure ConvRow where
  campaign_id : Nat
  direction : String
  message_content : String
  classification : Option String := none
  sentiment : Option String := none
  deriving DecidableEq

/-- The store handleReply reads and writes. -/
structure ConvState where
  campaigns : List CampaignRow := []
  conversations : List ConvRow := []
  deriving DecidableEq

/-- generateResponse (lines 101-166): OUT_OF_OFFICE and UNSUBSCRIBE get no
response at all; every other intent gets the drafted reply text, which comes
from an external model call, here the `claudeText` parameter. -/
def generateResponse (claudeText : String) (c : Classification) : Option String :=
  if ["OUT_OF_OFFICE", "UNSUBSCRIBE"].contains c.intent then none
  else some claudeText

/-- storeConversation (lines 171-197): always insert the incoming row; insert
an outgoing row only when the response is truthy (present and non-empty). -/
def storeConversation (campaignId : Nat) (incoming : String)
    (outgoing : Option String) (c : Classification) (st : ConvState) : ConvState :=
  let st1 := { st with conversations := st.conversations ++
      [{ campaign_id := campaignId, direction := "incoming"
         message_content := incoming, classification := some c.intent
         sentiment := some c.sentiment }] }
  match outgoing with
  | some s =>
      if s == "" then st1
      else { st1 with conversations := st1.conversations ++
          [{ campaign_id := campaignId, direction := "outgoing"
             message_content := s }] }
  | none => st1

/-- updateCampaignStatus (lines 202-225): the status written for each
intent, with `replied` as the default — the update always runs. -/
def updateCampaignStatus (now : Nat) (campaignId : Nat) (c : Classification)
    (st : ConvState) : ConvState :=
  let newStatus :=
    if c.intent == "INTERESTED" then "interested"
    else if c.intent == "READY_TO_BOOK" then "booking"
    else if c.intent == "NOT_INTERESTED" || c.intent == "UNSUBSCRIBE" then "closed_lost"
    else if c.intent == "OBJECTION" then "nurturing"
    else "replied"
  { st with campaigns := st.campaigns.map (fun cr =>
      if cr.id == campaignId then
        { cr with status := newStatus, last_reply_at := some now
                  sentiment := some c.sentiment }
      else cr) }

/-- triggerBooking (lines 230-244). -/
def triggerBooking (now : Nat) (campaignId : Nat) (st : ConvState) : ConvState :=
  { st with campaigns := st.campaigns.map (fun cr =>
      if cr.id == campaignId then
        { cr with status := "booking", booking_triggered_at := some now }
      else cr) }

/-- determineAction (lines 267-279). -/
def determineAction (c : Classification) : String :=
  if c.intent == "INTERESTED" then "send_response_and_monitor"
  else if c.intent == "READY_TO_BOOK" then "send_calendar_link"
  else if c.intent == "NOT_INTERESTED" then "mark_closed"
  else if c.intent == "OBJECTION" then "send_response_and_nurture"
  else if c.intent == "OUT_OF_OFFICE" then "wait_and_retry"
  else if c.intent == "UNSUBSCRIBE" then "remove_from_list"
  else if c.intent == "UNCLEAR" then "flag_for_human_review"
  else "flag_for_human_review"

/-- handleReply's return value plus the updated store. -/
structure HandleReplyResult where
  state : ConvState
  response : Option String
  action : String

/-- handleReply (lines 24-58): classify (the classification is the `c`
parameter — it comes from an external model call), generate the response,
store the conversation, update the campaign status, and trigger booking for
the intents 'interested' / 'ready_to_book' (note: compared in lower case
against the classifier's upper-case intents, so this branch never fires for
the contract's labels — embedded as written). -/
def handleReply (now : Nat) (campaignId : Nat) (replyText : String)
    (c : Classification) (claudeText : String) (st : ConvState) :
    HandleReplyResult :=
  let response := generateResponse claudeText c
  let st1 := storeConversation campaignId replyText response c st
  let st2 := updateCampaignStatus now campaignId c st1
  let st3 :=
    if c.intent == "interested" || c.intent == "ready_to_book" then
      triggerBooking now campaignId st2
    else st2
  { state := st3, response := response, action := determineAction c }

/- Reference notion for the claim about detectSignals' corpus. -/

mutual

/-- All string values occurring in a record, in order. -/
def collectStrings : Jval → List String
  | .jstr s => [s]
  | .jarr es => collectStringsElems es
  | .jobj fs => collectStringsFields fs
  | _ => []

def collectStringsElems : List Jval → List String
  | [] => []
  | e :: es => collectStrings e ++ collectStringsElems es

def collectStringsFields : List (String × Jval) → List String
  | [] => []
  | (_, v) :: fs => collectStrings v ++ collectStringsFields fs

end

/-- Modelled from the spec: the corpus the signal-detector claim describes —
"the record's textual fields are concatenated into a single lowercase search
corpus".  This follows the spec's words, not the source (which serializes
the whole record with JSON.stringify); it exists only to compare the two. -/
def specTextCorpus (o : Jval) : String :=
  toLowerStr (String.intercalate " " (collectStrings o))

/- Concrete fixtures used by the witnesses and counterexamples below. -/

/-- A record with no textual fields at all: its only property is the boolean
routing flag. -/
def rNoText : Jval := Jval.jobj [("route_to_outreach", Jval.jbool false)]

/-- The spec's scenario-2 exemplar: a lead whose text contains "struggling",
"need help", "funded" and "lead generation", with a contact address and no
discovery score. -/
def oScenario2 : Jval :=
  Jval.jobj
    [("contact_email", Jval.jstr "founder@acme.com"),
     ("pain_point",
      Jval.jstr "we are struggling and need help. we just got funded. want lead generation.")]

/-- A campaign already sent to a@b.com. -/
def cSentAB : CampaignRow :=
  { id := 1, recipient_email := some "a@b.com", company_name := "Acme"
    subject := "hello", status := "sent", sent_at := some 10 }

/-- An mfs_leads row for the same address, researched and never contacted. -/
def leadAB : MfsLead :=
  { id := 7, company_name := "Acme", contact_name := some "Ann Lee"
    contact_email := some "a@b.com", fit_score := some 30
    lead_research := some "established consultancy, strong referrals" }

/-- A writer standing in for SmartEmailWriter.writeEmail in concrete runs. -/
def fixedWriter (lead : MfsLead) : EmailDraft :=
  { subject := "a question about " ++ lead.company_name
    body := "Hi, quick question about " ++ lead.company_name ++ "." }

/-- A validator that accepts every draft, for concrete runs. -/
def acceptAll (_ : EmailDraft) : EmailValidation :=
  { valid := true, issues := [], quality := "good" }

/-- Outreach store for the duplicate-send scenario: the sent campaign exists,
the lead reappears in mfs_leads. -/
def stDup : OutreachState :=
  { campaigns := [cSentAB], mfsLeads := [leadAB]
    settings := [("auto_outreach_enabled", "true")] }

/-- Outreach store for the unsubscribe scenario: a campaign was sent to
a@b.com, the address then unsubscribes, and the lead is selected again. -/
def stUnsub : OutreachState :=
  unsubscribeGet 20 "a@b.com"
    { campaigns := [cSentAB], mfsLeads := [leadAB]
      settings := [("auto_outreach_enabled", "true")] }

/-- The default system_settings rows inserted by the schema (unnamed SQL
part, lines 609-615): everything requires manual approval. -/
def defaultSystemSettings : List (String × String) :=
  [("auto_outreach_enabled", "false"),
   ("auto_delivery_enabled", "false"),
   ("require_approval_for_outreach", "true"),
   ("require_approval_for_delivery", "true")]

/-- Campaign rows recorded as sent to the address. -/
def sentCountFor (e : String) (st : OutreachState) : Nat :=
  st.campaigns.countP (fun c => c.recipient_email == some e && c.status == "sent")

/-- Campaign rows addressed to the address, any status. -/
def campaignCountFor (e : String) (st : OutreachState) : Nat :=
  st.campaigns.countP (fun c => c.recipient_email == some e)

/-- Emails actually dispatched to the address. -/
def dispatchCountFor (e : String) (st : OutreachState) : Nat :=
  st.dispatched.countP (fun d => d.toAddr == some e)

/-- Gap store for the auto-send-gate scenario: auto_outreach_enabled holds
its schema default value false, one approved high-confidence gap awaits
outreach. -/
def stGate : OutreachState :=
  { settings := defaultSystemSettings
    marketGaps := [{ id := 3, company_name := "Acme", gap_type := "growth"
                     confidence_score := mkRat 4 5, approved_for_outreach := true
                     outreach_sent := none }] }

/-- Batch store with 50 leads in inventory — below the batch size of 100. -/
def stFifty : BatchStore :=
  { scored := (List.range 50).map (fun i =>
      { id := i, qualified := true, overall_score := 30, batch_id := none })
    batches := [], nextBatchId := 1 }

/-- Conversation store holding one campaign in status sent. -/
def stSent : ConvState :=
  { campaigns := [cSentAB], conversations := [] }

/-- An UNSUBSCRIBE classification. -/
def clsUnsub : Classification :=
  { intent := "UNSUBSCRIBE", sentiment := "negative" }

/-- An OUT_OF_OFFICE classification. -/
def clsOoo : Classification :=
  { intent := "OUT_OF_OFFICE", sentiment := "neutral" }

/-! Helper lemmas shared by the theorems below. -/

lemma sql_painSeverity (o : Jval) :
    (scoreQualifiedLead o).painSeverity = painSeverityOf (jsonCorpus o) := rfl

lemma sql_budget (o : Jval) :
    (scoreQualifiedLead o).budgetLikelihood = budgetLikelihoodOf (detectSignals o) := rfl

lemma sql_urgency (o : Jval) :
    (scoreQualifiedLead o).urgency = urgencyOf (detectSignals o) := rfl

lemma sql_fit (o : Jval) :
    (scoreQualifiedLead o).serviceFit = serviceFitOf (detectSignals o) := rfl

lemma sql_total (o : Jval) :
    (scoreQualifiedLead o).totalScore =
      (scoreQualifiedLead o).painSeverity + (scoreQualifiedLead o).budgetLikelihood +
        (scoreQualifiedLead o).urgency + (scoreQualifiedLead o).serviceFit := rfl

lemma sql_rec (o : Jval) :
    (scoreQualifiedLead o).recommendation =
      recommendationOf (scoreQualifiedLead o).totalScore := rfl

lemma painSeverityOf_le_ten (t : String) : painSeverityOf t ≤ 10 := Nat.min_le_left _ _

lemma budgetLikelihoodOf_le_ten (s : Signals) : budgetLikelihoodOf s ≤ 10 :=
  Nat.min_le_left _ _

lemma serviceFitOf_le_ten (s : Signals) : serviceFitOf s ≤ 10 := Nat.min_le_left _ _

lemma urgencyOf_mem (s : Signals) :
    urgencyOf s = 5 ∨ urgencyOf s = 6 ∨ urgencyOf s = 7 ∨ urgencyOf s = 9 := by
  unfold urgencyOf
  split_ifs <;> simp

lemma recommendationOf_skip_iff (t : Nat) : recommendationOf t = "SKIP" ↔ t ≤ 19 := by
  unfold recommendationOf
  split_ifs with h1 h2 h3
  · exact iff_of_false (by decide) (by omega)
  · exact iff_of_false (by decide) (by omega)
  · exact iff_of_false (by decide) (by omega)
  · exact iff_of_true rfl (by omega)

section MfsDedupLemmas

variable (wf : MfsLead → EmailDraft) (vf : EmailDraft → EmailValidation)
  (sendOk : MfsLead → Bool) (autoSend hasApiKey : Bool) (now : Nat)

lemma checkAlreadySent_of_sent {st : OutreachState} {e : String}
    (h : 0 < sentCountFor e st) : checkAlreadySent st (some e) = true := by
  unfold sentCountFor at h
  rw [List.countP_eq_length_filter] at h
  unfold checkAlreadySent
  exact decide_eq_true h

lemma step_skip {st : OutreachState} {p : MfsLead}
    (h : checkAlreadySent st p.contact_email = true) :
    processMfsLead wf vf sendOk autoSend hasApiKey now st p =
      markLeadStatus now p.id "already_sent" st := by
  unfold processMfsLead
  rw [if_pos h]

lemma step_campaigns (st : OutreachState) (p : MfsLead) :
    (processMfsLead wf vf sendOk autoSend hasApiKey now st p).campaigns = st.campaigns ∨
    ∃ row : CampaignRow,
      (processMfsLead wf vf sendOk autoSend hasApiKey now st p).campaigns =
        st.campaigns ++ [row] ∧ row.recipient_email = p.contact_email := by
  unfold processMfsLead
  split_ifs
  · exact Or.inl rfl
  · exact Or.inl rfl
  · exact Or.inr ⟨_, rfl, rfl⟩
  · exact Or.inl rfl
  · exact Or.inr ⟨_, rfl, rfl⟩

lemma step_dispatched (st : OutreachState) (p : MfsLead) :
    (processMfsLead wf vf sendOk autoSend hasApiKey now st p).dispatched = st.dispatched ∨
    ∃ d : SentEmail,
      (processMfsLead wf vf sendOk autoSend hasApiKey now st p).dispatched =
        st.dispatched ++ [d] ∧ d.toAddr = p.contact_email := by
  unfold processMfsLead
  split_ifs
  · exact Or.inl rfl
  · exact Or.inl rfl
  · exact Or.inr ⟨_, rfl, rfl⟩
  · exact Or.inl rfl
  · exact Or.inl rfl

lemma step_mfsLeads (st : OutreachState) (p : MfsLead) :
    ∃ s : String,
      (processMfsLead wf vf sendOk autoSend hasApiKey now st p).mfsLeads =
        st.mfsLeads.map (updLeadStatus now p.id s) := by
  unfold processMfsLead
  split_ifs
  · exact ⟨"already_sent", rfl⟩
  · exact ⟨"email_quality_failed", rfl⟩
  · exact ⟨"sent", rfl⟩
  · exact ⟨"send_failed", rfl⟩
  · exact ⟨"draft", rfl⟩

lemma updLeadStatus_id (n i : Nat) (s : String) (r : MfsLead) :
    (updLeadStatus n i s r).id = r.id := by
  unfold updLeadStatus
  split_ifs <;> rfl

lemma step_counts {st : OutreachState} {e : String} (p : MfsLead)
    (hsent : 0 < sentCountFor e st) :
    0 < sentCountFor e (processMfsLead wf vf sendOk autoSend hasApiKey now st p) ∧
    campaignCountFor e (processMfsLead wf vf sendOk autoSend hasApiKey now st p) =
      campaignCountFor e st ∧
    dispatchCountFor e (processMfsLead wf vf sendOk autoSend hasApiKey now st p) =
      dispatchCountFor e st := by
  by_cases hpe : p.contact_email = some e
  · have hskip : processMfsLead wf vf sendOk autoSend hasApiKey now st p =
        markLeadStatus now p.id "already_sent" st := by
      apply step_skip
      rw [hpe]
      exact checkAlreadySent_of_sent hsent
    rw [hskip]
    exact ⟨hsent, rfl, rfl⟩
  · have hbe : ∀ q : Option String, q = p.contact_email → (q == some e) = false := by
      intro q hq
      rw [hq, beq_eq_false_iff_ne]
      intro hcontra
      exact hpe hcontra
    constructor
    · rcases step_campaigns wf vf sendOk autoSend hasApiKey now st p with h | ⟨row, hrow, hre⟩
      · unfold sentCountFor
        rw [h]
        exact hsent
      · unfold sentCountFor at hsent ⊢
        rw [hrow, List.countP_append]
        omega
    constructor
    · rcases step_campaigns wf vf sendOk autoSend hasApiKey now st p with h | ⟨row, hrow, hre⟩
      · unfold campaignCountFor
        rw [h]
      · unfold campaignCountFor
        rw [hrow, List.countP_append, List.countP_cons, List.countP_nil,
          hbe row.recipient_email hre]
        simp
    · rcases step_dispatched wf vf sendOk autoSend hasApiKey now st p with h | ⟨d, hd, hde⟩
      · unfold dispatchCountFor
        rw [h]
      · unfold dispatchCountFor
        rw [hd, List.countP_append, List.countP_cons, List.countP_nil,
          hbe d.toAddr hde]
        simp

lemma loop_counts (leads : List MfsLead) {st : OutreachState} {e : String}
    (hsent : 0 < sentCountFor e st) :
    0 < sentCountFor e (processMfsLeads wf vf sendOk autoSend hasApiKey now leads st) ∧
    campaignCountFor e (processMfsLeads wf vf sendOk autoSend hasApiKey now leads st) =
      campaignCountFor e st ∧
    dispatchCountFor e (processMfsLeads wf vf sendOk autoSend hasApiKey now leads st) =
      dispatchCountFor e st := by
  induction leads generalizing st with
  | nil => exact ⟨hsent, rfl, rfl⟩
  | cons p ps ih =>
    have hstep := step_counts wf vf sendOk autoSend hasApiKey now p hsent
    have hrest := ih hstep.1
    unfold processMfsLeads at hrest ⊢
    rw [List.foldl_cons]
    refine ⟨hrest.1, ?_, ?_⟩
    · rw [hrest.2.1, hstep.2.1]
    · rw [hrest.2.2, hstep.2.2]

lemma step_row_exists {st : OutreachState} {i : Nat} (p : MfsLead)
    (hex : ∃ r ∈ st.mfsLeads, r.id = i) :
    ∃ r ∈ (processMfsLead wf vf sendOk autoSend hasApiKey now st p).mfsLeads, r.id = i := by
  obtain ⟨s, hs⟩ := step_mfsLeads wf vf sendOk autoSend hasApiKey now st p
  obtain ⟨r, hr, hri⟩ := hex
  refine ⟨updLeadStatus now p.id s r, ?_, ?_⟩
  · rw [hs]
    exact List.mem_map_of_mem _ hr
  · rw [updLeadStatus_id, hri]

lemma loop_row_exists (leads : List MfsLead) {st : OutreachState} {i : Nat}
    (hex : ∃ r ∈ st.mfsLeads, r.id = i) :
    ∃ r ∈ (processMfsLeads wf vf sendOk autoSend hasApiKey now leads st).mfsLeads,
      r.id = i := by
  induction leads generalizing st with
  | nil => exact hex
  | cons p ps ih =>
    unfold processMfsLeads at ih ⊢
    rw [List.foldl_cons]
    exact ih (step_row_exists wf vf sendOk autoSend hasApiKey now p hex)

lemma mark_establishes {st : OutreachState} {e : String} {l : MfsLead}
    (hsent : 0 < sentCountFor e st) (hle : l.contact_email = some e) :
    ∀ r ∈ (processMfsLead wf vf sendOk autoSend hasApiKey now st l).mfsLeads,
      r.id = l.id → r.outreach_status = some "already_sent" := by
  have hskip : processMfsLead wf vf sendOk autoSend hasApiKey now st l =
      markLeadStatus now l.id "already_sent" st := by
    apply step_skip
    rw [hle]
    exact checkAlreadySent_of_sent hsent
  rw [hskip]
  intro r hr hri
  obtain ⟨r0, hr0, rfl⟩ := List.mem_map.mp hr
  unfold updLeadStatus at hri ⊢
  by_cases h0 : r0.id == l.id
  · rw [if_pos h0]
  · rw [if_neg h0] at hri ⊢
    exact absurd (beq_iff_eq.mpr hri) h0

lemma step_keeps_marked {st : OutreachState} {i : Nat} (p : MfsLead) (hne : p.id ≠ i)
    (hall : ∀ r ∈ st.mfsLeads, r.id = i → r.outreach_status = some "already_sent") :
    ∀ r ∈ (processMfsLead wf vf sendOk autoSend hasApiKey now st p).mfsLeads,
      r.id = i → r.outreach_status = some "already_sent" := by
  obtain ⟨s, hs⟩ := step_mfsLeads wf vf sendOk autoSend hasApiKey now st p
  rw [hs]
  intro r hr hri
  obtain ⟨r0, hr0, rfl⟩ := List.mem_map.mp hr
  rw [updLeadStatus_id] at hri
  have hne0 : (r0.id == p.id) = false := by
    rw [beq_eq_false_iff_ne, hri]
    intro hcontra
    exact hne hcontra.symm
  unfold updLeadStatus
  rw [hne0]
  simp only [Bool.false_eq_true, if_false]
  exact hall r0 hr0 hri

lemma loop_keeps_marked (post : List MfsLead) {st : OutreachState} {i : Nat}
    (hne : ∀ p ∈ post, p.id ≠ i)
    (hall : ∀ r ∈ st.mfsLeads, r.id = i → r.outreach_status = some "already_sent") :
    ∀ r ∈ (processMfsLeads wf vf sendOk autoSend hasApiKey now post st).mfsLeads,
      r.id = i → r.outreach_status = some "already_sent" := by
  induction post generalizing st with
  | nil => exact hall
  | cons p ps ih =>
    unfold processMfsLeads at ih ⊢
    rw [List.foldl_cons]
    exact ih (fun q hq => hne q (List.mem_cons_of_mem p hq))
      (step_keeps_marked wf vf sendOk autoSend hasApiKey now p
        (hne p (List.mem_cons_self p ps)) hall)

end MfsDedupLemmas

/-! The claim theorems. -/

/-- C3: preQualify returns qualified=true if and only if at least 3 of the
four derived criteria are true, or route_to_outreach is strictly true, or the
discovery score (overall_score, defaulting to 0) is at least 70; in
particular a discovery score of 70 or more alone forces qualification. -/
theorem preQualify_three_of_four_or_override (o : Jval) :
    (preQualify o).qualified = true ↔
      (3 ≤ criteriaCount (preQualify o).criteria ∨
        isRoutedToOutreach o = true ∨ 70 ≤ overallScoreOrZero o) := by
  simp only [preQualify, hasHighScore]
  simp [Bool.or_eq_true, decide_eq_true_eq, or_assoc]

/-- C4: scoreQualifiedLead returns the four sub-scores each bounded by 10
(they are natural numbers, so the lower bound 0 is inherent), and totalScore
is exactly their sum and bounded by 40. -/
theorem scoreQualifiedLead_bounds (o : Jval) :
    (scoreQualifiedLead o).painSeverity ≤ 10 ∧
    (scoreQualifiedLead o).budgetLikelihood ≤ 10 ∧
    (scoreQualifiedLead o).urgency ≤ 10 ∧
    (scoreQualifiedLead o).serviceFit ≤ 10 ∧
    (scoreQualifiedLead o).totalScore =
      (scoreQualifiedLead o).painSeverity + (scoreQualifiedLead o).budgetLikelihood +
        (scoreQualifiedLead o).urgency + (scoreQualifiedLead o).serviceFit ∧
    (scoreQualifiedLead o).totalScore ≤ 40 := by
  have hp := painSeverityOf_le_ten (jsonCorpus o)
  have hb := budgetLikelihoodOf_le_ten (detectSignals o)
  have hf := serviceFitOf_le_ten (detectSignals o)
  have hu := urgencyOf_mem (detectSignals o)
  rw [← sql_painSeverity] at hp
  rw [← sql_budget] at hb
  rw [← sql_fit] at hf
  rw [← sql_urgency] at hu
  have ht := sql_total o
  refine ⟨hp, hb, ?_, hf, ht, ?_⟩ <;> omega

/-- C10: the urgency sub-score only takes the values 5, 6, 7 or 9, so
totalScore is always at least 5 — the low end of the documented 0-40 range
is unreachable — and the SKIP tier is exactly the totals from 5 to 19. -/
theorem scoreQualifiedLead_urgency_tiers_and_floor (o : Jval) :
    ((scoreQualifiedLead o).urgency = 5 ∨ (scoreQualifiedLead o).urgency = 6 ∨
      (scoreQualifiedLead o).urgency = 7 ∨ (scoreQualifiedLead o).urgency = 9) ∧
    5 ≤ (scoreQualifiedLead o).totalScore ∧
    ((scoreQualifiedLead o).recommendation = "SKIP" ↔
      5 ≤ (scoreQualifiedLead o).totalScore ∧ (scoreQualifiedLead o).totalScore ≤ 19) := by
  have hu := urgencyOf_mem (detectSignals o)
  rw [← sql_urgency] at hu
  have ht := sql_total o
  have h5 : 5 ≤ (scoreQualifiedLead o).totalScore := by omega
  refine ⟨hu, h5, ?_⟩
  rw [sql_rec, recommendationOf_skip_iff]
  constructor
  · intro h
    exact ⟨h5, h⟩
  · intro h
    exact h.2

/-- C8 (amended): each keyword-based signal of detectSignals is true exactly
when the corpus — the lowercased JSON serialization of the whole record, key
names and punctuation included, not a concatenation of its textual fields —
contains at least one keyword of that signal's list as a substring. -/
theorem detectSignals_json_corpus (o : Jval) :
    ((detectSignals o).needsHelp = true ↔
      ∃ k ∈ needsHelpKeywords, jsIncludes (jsonCorpus o) (toLowerStr k) = true) ∧
    ((detectSignals o).hiring = true ↔
      ∃ k ∈ hiringKeywords, jsIncludes (jsonCorpus o) (toLowerStr k) = true) ∧
    ((detectSignals o).sourcingSolutions = true ↔
      ∃ k ∈ sourcingSolutionsKeywords, jsIncludes (jsonCorpus o) (toLowerStr k) = true) ∧
    ((detectSignals o).fundingMentioned = true ↔
      ∃ k ∈ fundingMentionedKeywords, jsIncludes (jsonCorpus o) (toLowerStr k) = true) ∧
    ((detectSignals o).payingForTools = true ↔
      ∃ k ∈ payingForToolsKeywords, jsIncludes (jsonCorpus o) (toLowerStr k) = true) ∧
    ((detectSignals o).budgetSignals = true ↔
      ∃ k ∈ budgetSignalsKeywords, jsIncludes (jsonCorpus o) (toLowerStr k) = true) ∧
    ((detectSignals o).painPointDetected = true ↔
      ∃ k ∈ painPointDetectedKeywords, jsIncludes (jsonCorpus o) (toLowerStr k) = true) ∧
    ((detectSignals o).urgencyHigh = true ↔
      ∃ k ∈ urgencyHighKeywords, jsIncludes (jsonCorpus o) (toLowerStr k) = true) ∧
    ((detectSignals o).urgencyMedium = true ↔
      ∃ k ∈ urgencyMediumKeywords, jsIncludes (jsonCorpus o) (toLowerStr k) = true) ∧
    ((detectSignals o).clientAcquisitionFit = true ↔
      ∃ k ∈ clientAcquisitionFitKeywords, jsIncludes (jsonCorpus o) (toLowerStr k) = true) := by
  simp only [detectSignals, containsAny, List.any_eq_true]
  tauto

/-- C8 (counterexample): the claim says a signal is true iff the
concatenation of the record's textual fields contains one of its keywords.
The record whose only property is the boolean route_to_outreach has no
textual fields at all — its spec corpus is empty — yet clientAcquisitionFit
comes out true, because JSON.stringify puts the key name route_to_outreach
into the corpus and it contains the keyword outreach. -/
theorem detectSignals_textual_fields_counterexample :
    (detectSignals rNoText).clientAcquisitionFit = true ∧
    specTextCorpus rNoText = "" ∧
    containsAny (specTextCorpus rNoText) clientAcquisitionFitKeywords = false := by
  refine ⟨by decide, by decide, by decide⟩

set_option maxRecDepth 16000 in
/-- C9 (counterexample): the spec's scenario-2 lead — text containing
"struggling", "need help", "funded" and "lead generation", a contact email,
no discovery score — does not behave as claimed.  Its relevantPainPoint
criterion is false ("struggle", the only nearby pain keyword, is not a
substring of "struggling"), so only 3 of 4 criteria hold; scoring gives
painSeverity 0, serviceFit 7 (5 + 2), totalScore 17 and recommendation SKIP
instead of the claimed 2, 10, 22 and MAYBE. -/
theorem scenario2_lead_counterexample :
    jsIncludes (jsonCorpus oScenario2) "struggling" = true ∧
    jsIncludes (jsonCorpus oScenario2) "need help" = true ∧
    jsIncludes (jsonCorpus oScenario2) "funded" = true ∧
    jsIncludes (jsonCorpus oScenario2) "lead generation" = true ∧
    overallScoreOrZero oScenario2 = 0 ∧
    ¬((preQualify oScenario2).criteria.relevantPainPoint = true ∧
      (scoreQualifiedLead oScenario2).painSeverity = 2 ∧
      (scoreQualifiedLead oScenario2).serviceFit = 10 ∧
      (scoreQualifiedLead oScenario2).totalScore = 22 ∧
      (scoreQualifiedLead oScenario2).recommendation = "MAYBE") := by
  refine ⟨by decide, by decide, by decide, by decide, by decide, by decide⟩

set_option maxRecDepth 16000 in
/-- C9 (amended): on the scenario-2 lead the code actually qualifies it via
3 of 4 criteria (relevantPainPoint false, the other three true) and scores
painSeverity 0, budgetLikelihood 4, urgency 6, serviceFit 7, totalScore 17,
recommendation SKIP. -/
theorem scenario2_lead_actual_outcome :
    (preQualify oScenario2).qualified = true ∧
    (preQualify oScenario2).criteria.lookingForSolutions = true ∧
    (preQualify oScenario2).criteria.hasBudget = true ∧
    (preQualify oScenario2).criteria.reachable = true ∧
    (preQualify oScenario2).criteria.relevantPainPoint = false ∧
    (scoreQualifiedLead oScenario2).painSeverity = 0 ∧
    (scoreQualifiedLead oScenario2).budgetLikelihood = 4 ∧
    (scoreQualifiedLead oScenario2).urgency = 6 ∧
    (scoreQualifiedLead oScenario2).serviceFit = 7 ∧
    (scoreQualifiedLead oScenario2).totalScore = 17 ∧
    (scoreQualifiedLead oScenario2).recommendation = "SKIP" := by
  refine ⟨by decide, by decide, by decide, by decide, by decide, by decide,
    by decide, by decide, by decide, by decide, by decide⟩

/-- C2: if a campaign with status sent already exists for an address, then a
later MFS outreach sweep processing any selection of leads that includes a
lead with that contact address dispatches no further email to the address,
creates no further campaign row for it, and marks that lead already_sent —
for every writer, validator, send outcome, toggle setting and sweep time. -/
theorem mfs_sweep_never_resends_sent_address
    (wf : MfsLead → EmailDraft) (vf : EmailDraft → EmailValidation)
    (sendOk : MfsLead → Bool) (autoSend hasApiKey : Bool) (now : Nat)
    (leads : List MfsLead) (st : OutreachState) (l : MfsLead) (e : String)
    (hone : ∃ c ∈ st.campaigns, c.recipient_email = some e ∧ c.status = "sent")
    (hl : l ∈ leads) (hle : l.contact_email = some e)
    (hid : (leads.map (fun x => x.id)).Nodup)
    (hrow : ∃ r ∈ st.mfsLeads, r.id = l.id) :
    dispatchCountFor e (processMfsLeads wf vf sendOk autoSend hasApiKey now leads st) =
      dispatchCountFor e st ∧
    campaignCountFor e (processMfsLeads wf vf sendOk autoSend hasApiKey now leads st) =
      campaignCountFor e st ∧
    (∀ r ∈ (processMfsLeads wf vf sendOk autoSend hasApiKey now leads st).mfsLeads,
      r.id = l.id → r.outreach_status = some "already_sent") ∧
    (∃ r ∈ (processMfsLeads wf vf sendOk autoSend hasApiKey now leads st).mfsLeads,
      r.id = l.id ∧ r.outreach_status = some "already_sent") := by
  have hsent : 0 < sentCountFor e st := by
    unfold sentCountFor
    rw [List.countP_pos]
    obtain ⟨c, hc, h1, h2⟩ := hone
    exact ⟨c, hc, by simp [h1, h2]⟩
  obtain ⟨pre, post, rfl⟩ := List.append_of_mem hl
  have hpost_ne : ∀ p ∈ post, p.id ≠ l.id := by
    rw [List.map_append, List.map_cons, List.nodup_append] at hid
    have h2 := hid.2.1
    rw [List.nodup_cons] at h2
    intro p hp hcontra
    exact h2.1 (hcontra ▸ List.mem_map_of_mem _ hp)
  have hsplit : processMfsLeads wf vf sendOk autoSend hasApiKey now (pre ++ l :: post) st =
      processMfsLeads wf vf sendOk autoSend hasApiKey now post
        (processMfsLead wf vf sendOk autoSend hasApiKey now
          (processMfsLeads wf vf sendOk autoSend hasApiKey now pre st) l) := by
    unfold processMfsLeads
    rw [List.foldl_append, List.foldl_cons]
  rw [hsplit]
  have h1 := loop_counts wf vf sendOk autoSend hasApiKey now pre hsent
  have hex1 := loop_row_exists wf vf sendOk autoSend hasApiKey now pre hrow
  have h2 := step_counts wf vf sendOk autoSend hasApiKey now l h1.1
  have hmark2 := mark_establishes wf vf sendOk autoSend hasApiKey now h1.1 hle
  have hex2 := step_row_exists wf vf sendOk autoSend hasApiKey now l hex1
  have h3 := loop_counts wf vf sendOk autoSend hasApiKey now post h2.1
  have hmark3 := loop_keeps_marked wf vf sendOk autoSend hasApiKey now post hpost_ne hmark2
  have hex3 := loop_row_exists wf vf sendOk autoSend hasApiKey now post hex2
  refine ⟨?_, ?_, hmark3, ?_⟩
  · rw [h3.2.2, h2.2.2, h1.2.2]
  · rw [h3.2.1, h2.2.1, h1.2.1]
  · obtain ⟨r, hrmem, hrid⟩ := hex3
    exact ⟨r, hrmem, hrid, hmark3 r hrmem hrid⟩

/-- C2 (witness): the dedup theorem applied to the concrete store stDup — a
sent campaign for a@b.com and the same address re-selected as lead 7 with
auto-send on — showing no dispatch, no new campaign row, and the lead marked
already_sent. -/
theorem mfs_sweep_never_resends_sent_address_witness :
    dispatchCountFor "a@b.com"
        (processMfsLeads fixedWriter acceptAll (fun _ => true) true true 40 [leadAB] stDup) =
      dispatchCountFor "a@b.com" stDup ∧
    campaignCountFor "a@b.com"
        (processMfsLeads fixedWriter acceptAll (fun _ => true) true true 40 [leadAB] stDup) =
      campaignCountFor "a@b.com" stDup ∧
    (∀ r ∈ (processMfsLeads fixedWriter acceptAll (fun _ => true) true true 40
        [leadAB] stDup).mfsLeads,
      r.id = leadAB.id → r.outreach_status = some "already_sent") ∧
    (∃ r ∈ (processMfsLeads fixedWriter acceptAll (fun _ => true) true true 40
        [leadAB] stDup).mfsLeads,
      r.id = leadAB.id ∧ r.outreach_status = some "already_sent") :=
  mfs_sweep_never_resends_sent_address fixedWriter acceptAll (fun _ => true) true true 40
    [leadAB] stDup leadAB "a@b.com"
    ⟨cSentAB, List.mem_cons_self _ _, rfl, rfl⟩
    (List.mem_cons_self _ _) rfl (List.nodup_singleton _)
    ⟨leadAB, List.mem_cons_self _ _, rfl⟩

set_option maxRecDepth 16000 in
/-- C6: contrary to the claim, an unsubscribed (block-listed) address can be
emailed again — no send path consults email_blocklist.  After
GET /api/unsubscribe/a@b.com the block-list entry exists, but the same
handler rewrote the prior sent campaign to status unsubscribed, so
checkAlreadySent no longer skips the address, and the next MFS sweep that
selects a lead with that address dispatches an email to it. -/
theorem unsubscribed_address_reemailed :
    (∃ b ∈ stUnsub.blocklist, b.email = "a@b.com" ∧ b.reason = "unsubscribe") ∧
    checkAlreadySent stUnsub (some "a@b.com") = false ∧
    (∃ d ∈ (mfsProcessOutreach fixedWriter acceptAll (fun _ => true) true 40
        stUnsub).dispatched, d.toAddr = some "a@b.com") := by
  refine ⟨⟨{ email := "a@b.com", reason := "unsubscribe", details := "user_requested" },
    by decide, by decide, by decide⟩, by decide, ?_⟩
  refine ⟨{ toAddr := some "a@b.com", subject := "a question about Acme"
            body := "Hi, quick question about Acme." }, by decide, by decide⟩

set_option maxRecDepth 16000 in
/-- C1: with auto_outreach_enabled at its schema default of false, the gated
gap agent creates only draft campaigns, but the legacy agent in
backend/agents/auto-outreach-agent.js — which never reads system_settings —
records a campaign with status sent and a sent_at timestamp in the same
situation (while dispatching no actual email, having no email client). -/
theorem legacy_agent_marks_sent_with_autosend_disabled :
    lookupSetting stGate "auto_outreach_enabled" = some "false" ∧
    autoSendEnabledIn stGate = false ∧
    (∀ c ∈ (gatedProcessOutreach 30 stGate).campaigns,
      c.status = "draft" ∧ c.sent_at = none) ∧
    (gatedProcessOutreach 30 stGate).campaigns.length = 1 ∧
    (legacyProcessOutreach 30 stGate).dispatched.length = 0 ∧
    (∃ c ∈ (legacyProcessOutreach 30 stGate).campaigns,
      c.status = "sent" ∧ c.sent_at = some 30) := by
  refine ⟨by decide, by decide, by decide, by decide, by decide, ?_⟩
  refine ⟨_, List.mem_cons_self _ _, by decide, by decide⟩

/-- C5: createBatch never reaches its inventory check — its first statement
calls getInventoryStatus without `this.`, so it throws a ReferenceError for
every store and every clientId, including the claimed scenario of 50
available leads against a batch size of 100, and consequently mutates no
lead; the call the code evidently intended (this.getInventoryStatus(), as
completeBatch makes) would fail there with the INSUFFICIENT_INVENTORY
condition. -/
theorem createBatch_reference_error :
    (getInventoryStatus stFifty).available = 50 ∧
    50 < cfgBatchSize ∧
    (∀ clientId : String,
      createBatch clientId stFifty =
        Except.error (CreateBatchError.referenceError "getInventoryStatus")) ∧
    (∀ (clientId : String) (r : BatchResult × BatchStore),
      createBatch clientId stFifty ≠ Except.ok r) ∧
    (∀ nowT : Nat,
      createBatchFixed "maggie-forbes" nowT stFifty =
        Except.error (CreateBatchError.insufficientInventory 50 100)) := by
  refine ⟨by decide, by decide, fun _ => rfl, fun _ r h => by simp [createBatch] at h, ?_⟩
  intro nowT
  show createBatchBody (getInventoryStatus stFifty) "maggie-forbes" nowT stFifty = _
  have hav : (getInventoryStatus stFifty).available = 50 := by decide
  unfold createBatchBody
  rw [hav]
  rfl

/-- C7 (counterexample): a reply classified UNSUBSCRIBE on a campaign in
status sent produces no reply draft, but handleReply does advance the
campaign's status — updateCampaignStatus rewrites it to closed_lost. -/
theorem unsubscribe_reply_advances_status :
    (∃ cr ∈ stSent.campaigns, cr.id = 1 ∧ cr.status = "sent") ∧
    (handleReply 50 1 "please remove me from this list" clsUnsub "unused" stSent).response =
      none ∧
    (∀ cr ∈ (handleReply 50 1 "please remove me from this list" clsUnsub
        "unused" stSent).state.campaigns,
      cr.id = 1 → cr.status = "closed_lost") ∧
    (∃ cr ∈ (handleReply 50 1 "please remove me from this list" clsUnsub
        "unused" stSent).state.campaigns,
      cr.id = 1 ∧ cr.status = "closed_lost") := by
  refine ⟨⟨cSentAB, List.mem_cons_self _ _, rfl, rfl⟩, by decide, by decide, ?_⟩
  refine ⟨_, List.mem_cons_self _ _, by decide, by decide⟩

/-- C7 (amended): for OUT_OF_OFFICE and UNSUBSCRIBE classifications
handleReply produces no reply draft — the response is null and no outgoing
conversation row is stored — but it still updates the campaign's status:
to replied for OUT_OF_OFFICE and to closed_lost for UNSUBSCRIBE. -/
theorem handleReply_passthrough_no_draft_but_status_update
    (nowT cid : Nat) (replyText claudeText : String)
    (c : Classification) (st : ConvState)
    (h : c.intent = "OUT_OF_OFFICE" ∨ c.intent = "UNSUBSCRIBE") :
    (handleReply nowT cid replyText c claudeText st).response = none ∧
    (handleReply nowT cid replyText c claudeText st).state.conversations.countP
        (fun r => r.direction == "outgoing") =
      st.conversations.countP (fun r => r.direction == "outgoing") ∧
    (∀ cr ∈ (handleReply nowT cid replyText c claudeText st).state.campaigns,
      cr.id = cid →
        cr.status = (if c.intent = "UNSUBSCRIBE" then "closed_lost" else "replied")) := by
  have hresp : generateResponse claudeText c = none := by
    unfold generateResponse
    rcases h with h | h <;> rw [h] <;> rfl
  have hbook : (c.intent == "interested" || c.intent == "ready_to_book") = false := by
    rcases h with h | h <;> rw [h] <;> rfl
  simp only [handleReply, storeConversation, updateCampaignStatus, triggerBooking,
    hresp, hbook, Bool.false_eq_true, if_false]
  refine ⟨trivial, ?_, ?_⟩
  · simp only [List.countP_append, List.countP_cons, List.countP_nil]
    simp
  · intro cr hm hid
    obtain ⟨cr0, hcr0, rfl⟩ := List.mem_map.mp hm
    by_cases h0 : (cr0.id == cid) = true
    · rw [if_pos h0]
      rcases h with h | h <;> rw [h] <;> rfl
    · rw [if_neg h0] at hid ⊢
      exact absurd (beq_iff_eq.mpr hid) h0

/-- C7 (witness): the pass-through theorem applied at an OUT_OF_OFFICE reply
on the concrete store stSent. -/
theorem handleReply_passthrough_witness :
    (handleReply 60 1 "i am away until monday" clsOoo "unused" stSent).response = none ∧
    (handleReply 60 1 "i am away until monday" clsOoo "unused" stSent).state.conversations.countP
        (fun r => r.direction == "outgoing") =
      stSent.conversations.countP (fun r => r.direction == "outgoing") ∧
    (∀ cr ∈ (handleReply 60 1 "i am away until monday" clsOoo
        "unused" stSent).state.campaigns,
      cr.id = 1 →
        cr.status = (if clsOoo.intent = "UNSUBSCRIBE" then "closed_lost" else "replied")) :=
  handleReply_passthrough_no_draft_but_status_update 60 1 "i am away until monday"
    "unused" clsOoo stSent (Or.inl rfl)
